import Mathlib

/-!
Verification development for the Voice-Powered-Flowchart-Generator repository
(`src/backend.py`, `src/app.py`).

The embedding models the filesystem as an association list from resolved path
component lists to file contents (strings).  `pathlib` joins paths without
normalising them; the operating system resolves `.` and `..` when a path is
opened or tested, so the model keys the store by normalised paths and
normalises every constructed path before lookup.  The two external
capabilities (the Gemini text generator and the Graphviz/PyMuPDF render
pipeline) are opaque in the source; they are modelled as an explicit
capability record `Caps` whose fields decide what each external call returns.
-/

namespace Flowchart

/-- A filesystem: resolved path (component list) ↦ file content.  Later
entries may be shadowed by earlier ones; `List.lookup` returns the newest. -/
abbrev FS := List (List String × String)

/-- Write (create or fully overwrite) the document at a path. -/
def fsWrite (fs : FS) (p : List String) (v : String) : FS :=
  (p, v) :: fs

/-- Unlink a path: remove every entry stored under it. -/
def fsErase (fs : FS) (p : List String) : FS :=
  fs.filter (fun e => !(e.1 == p))

/-- Normalise path components the way the OS resolves a path: drop empty
components and `.`, and let `..` pop the previous component (at the root it
is dropped; the working directory is modelled as the root). -/
def normAux (acc : List String) : List String → List String
  | [] => acc.reverse
  | c :: rest =>
    if c = "" || c = "." then normAux acc rest
    else if c = ".." then
      match acc with
      | [] => normAux [] rest
      | _ :: acc₂ => normAux acc₂ rest
    else normAux (c :: acc) rest

/-- Split a character list on `/` (the semantics of `str.split("/")`),
accumulating the current component in reverse. -/
def splitSlashAux (cur : List Char) : List Char → List String
  | [] => [String.mk cur.reverse]
  | c :: rest =>
    if c = '/' then String.mk cur.reverse :: splitSlashAux [] rest
    else splitSlashAux (c :: cur) rest

/-- Split a path string into its `/`-separated components. -/
def splitSlash (s : String) : List String := splitSlashAux [] s.data

/-- Whether a path string is absolute (leading `/`); `pathlib`'s join
discards the base for an absolute operand. -/
def isAbsolute (s : String) : Bool :=
  match s.data with
  | c :: _ => c == '/'
  | [] => false

/-- `base / name` as `pathlib` joins it, then resolved by the OS: `name` is
split on `/`; an absolute `name` (leading `/`) replaces the base entirely,
exactly as `Path.__truediv__` does. -/
def resolvePath (base : List String) (name : String) : List String :=
  if isAbsolute name then normAux [] (splitSlash name)
  else normAux [] (base ++ splitSlash name)

/-- `Path.stem` of a single path component: the component without its final
suffix; a leading dot (hidden file) does not start a suffix. -/
def stemStr (s : String) : String :=
  match s.data.reverse.findIdx? (fun c => c = '.') with
  | none => s
  | some i =>
    let j := s.data.length - 1 - i
    if j = 0 then s else ⟨s.data.take j⟩

/-- The last component of a path (`Path.name`), or `""` for the empty path. -/
def lastName (p : List String) : String := p.getLastD ""

/-- Characters the sanitizer keeps: the regex class `[a-zA-Z0-9_-]`. -/
def allowedChar (c : Char) : Bool :=
  c.isAlpha || c.isDigit || c == '_' || c == '-'

/-- One step of `re.sub(r'[^a-zA-Z0-9_-]', '_', email)`: a character outside
the class is replaced by `_`. -/
def sanChar (c : Char) : Char :=
  if allowedChar c then c else '_'

/-- `backend.sanitize_email_for_folder`: replaces every character outside
`[a-zA-Z0-9_-]` with `_` (per-character substitution over the string). -/
def sanitize_email_for_folder (email : String) : String :=
  ⟨email.data.map sanChar⟩

/-- The external capabilities the orchestrator calls.  `genInitial` and
`genModify` model the two Gemini helpers (`none` = the helper returned
`None` after an exception); `convertOk` models whether Graphviz succeeds on
a given DOT text; `embedOk` models whether the PyMuPDF embedding step
succeeds. -/
structure Caps where
  genInitial : String → Option String
  genModify : String → String → Option String
  convertOk : String → Bool
  embedOk : Bool

/-- Opaque content of the PNG Graphviz renders from a DOT text. -/
def pngOf (dot : String) : String := "PNG:" ++ dot

/-- Opaque content of the PDF produced by embedding a PNG into the template. -/
def pdfOf (png : String) : String := "PDF:" ++ png

def TEMP_DIR : List String := ["temp_files"]
def SESSION_DIR : List String := ["session_files"]
def OUTPUT_DIR : List String := ["outputs"]
def TEMPLATE_DIR : List String := ["flowchart_templates"]

def genFailedMsg : String := "Failed to generate flowchart logic."
def convertFailedMsg : String := "Failed to convert flowchart to an image."
def embedFailedMsg : String := "Failed to embed image in PDF."

/-- The temporary `.dot` file `convert_dot_to_png` writes for a given stem. -/
def tempDotPath (stem : String) : List String := TEMP_DIR ++ [stem ++ ".dot"]

/-- The temporary PNG path `process_dot_code` derives for a given stem. -/
def tempPngPath (stem : String) : List String := TEMP_DIR ++ [stem ++ ".png"]

/-- The deterministic output PDF filename for a given session-file stem. -/
def outputPdfFilename (stem : String) : String := "flowchart_" ++ stem ++ ".pdf"

/-- The output PDF path for a given session-file stem. -/
def outputPdfPath (stem : String) : List String :=
  OUTPUT_DIR ++ [outputPdfFilename stem]

/-- `backend.process_dot_code`: persist the DOT code to the session file,
convert it to a PNG (via a temporary `.dot` file that `convert_dot_to_png`
writes and removes in its `finally`), embed the PNG into the PDF template,
and unlink the PNG.  Returns `(output_pdf_filename, None)` on success and
`(None, error)` on failure, modelled as `Except`.  Note the early return on
embed failure happens before the PNG unlink, exactly as in the source. -/
def process_dot_code (caps : Caps) (dot_code : String) (session_file : List String)
    (fs : FS) : Except String String × FS :=
  let fs₁ := fsWrite fs session_file dot_code
  let stem := stemStr (lastName session_file)
  let fs₂ := fsWrite fs₁ (tempDotPath stem) dot_code
  if caps.convertOk dot_code then
    let fs₃ := fsErase (fsWrite fs₂ (tempPngPath stem) (pngOf dot_code)) (tempDotPath stem)
    if caps.embedOk then
      let fs₄ := fsWrite fs₃ (outputPdfPath stem) (pdfOf (pngOf dot_code))
      let fs₅ := if (fs₄.lookup (tempPngPath stem)).isSome
                 then fsErase fs₄ (tempPngPath stem) else fs₄
      (Except.ok (outputPdfFilename stem), fs₅)
    else
      (Except.error embedFailedMsg, fs₃)
  else
    (Except.error convertFailedMsg, fsErase fs₂ (tempDotPath stem))

/-- `backend.process_flowchart_request`: generate (or modify) the DOT code
via the external generator and hand it to `process_dot_code`.  Python's
`if not dot_code` treats both `None` and the empty string as failure.  When
`is_new` is false the source reads the session file with `read_text`; a
missing file would raise there, but the only caller (`handle_add_request`)
checks existence first, so that branch is unreachable from the routes and
is modelled as the generation-failure return. -/
def process_flowchart_request (caps : Caps) (user_prompt : String)
    (session_file : List String) (is_new : Bool) (fs : FS) :
    Except String String × FS :=
  let dot_code : Option String :=
    if is_new then caps.genInitial user_prompt
    else
      match fs.lookup session_file with
      | some current => caps.genModify current user_prompt
      | none => none
  match dot_code with
  | none => (Except.error genFailedMsg, fs)
  | some d =>
    if d = "" then (Except.error genFailedMsg, fs)
    else process_dot_code caps d session_file fs

/-- The session-file path the routes construct:
`SESSION_DIR / sanitize_email_for_folder(email) / f"{session_id}.dot"`. -/
def sessionFilePath (email sid : String) : List String :=
  resolvePath (SESSION_DIR ++ [sanitize_email_for_folder email]) (sid ++ ".dot")

/-- The template-file path `handle_load_template_request` constructs:
`TEMPLATE_DIR / f"{template_id}.dot"`. -/
def templateFilePath (tid : String) : List String :=
  resolvePath TEMPLATE_DIR (tid ++ ".dot")

/-- `app.list_templates`: the ids of the `*.dot` files directly inside the
template directory (the enumerated template catalog). -/
def list_templates (fs : FS) : List String :=
  fs.filterMap (fun e =>
    match e.1 with
    | ["flowchart_templates", f] =>
      if (".dot".data).isSuffixOf f.data then some (stemStr f) else none
    | _ => none)

/-- `app.handle_add_request` (route `/flowchart/add`), after body validation:
check the session file exists, else 404; then run the pipeline with
`is_new=False`.  Pipeline errors surface as 500 with the backend message. -/
def handle_add (caps : Caps) (user_email session_id user_prompt : String)
    (fs : FS) : Except (Nat × String) String × FS :=
  let session_file := sessionFilePath user_email session_id
  if (fs.lookup session_file).isSome then
    match process_flowchart_request caps user_prompt session_file false fs with
    | (Except.ok f, fs₂) => (Except.ok f, fs₂)
    | (Except.error m, fs₂) => (Except.error (500, m), fs₂)
  else
    (Except.error (404, "Session ID \x27" ++ session_id ++
      "\x27 not found for user \x27" ++ user_email ++ "\x27."), fs)

/-- `app.handle_create_request` (route `/flowchart/create`), after body
validation.  The fresh `uuid.uuid4()` is passed in as `session_id`. -/
def handle_create (caps : Caps) (user_email user_prompt session_id : String)
    (fs : FS) : Except (Nat × String) (String × String) × FS :=
  let session_file := sessionFilePath user_email session_id
  match process_flowchart_request caps user_prompt session_file true fs with
  | (Except.ok f, fs₂) => (Except.ok (session_id, f), fs₂)
  | (Except.error m, fs₂) => (Except.error (500, m), fs₂)

/-- `app.handle_load_template_request` (route `/flowchart/load_template`),
after body validation: build `TEMPLATE_DIR / f"{template_id}.dot"`, 404 if
that path is not a file, otherwise read it and run `process_dot_code` on a
fresh session.  The fresh `uuid.uuid4()` is passed in as `session_id`. -/
def handle_load_template (caps : Caps) (user_email template_id session_id : String)
    (fs : FS) : Except (Nat × String) (String × String) × FS :=
  let template_file := templateFilePath template_id
  match fs.lookup template_file with
  | none => (Except.error (404, "Template \x27" ++ template_id ++
      "\x27 not found."), fs)
  | some dot_code =>
    let session_file := sessionFilePath user_email session_id
    match process_dot_code caps dot_code session_file fs with
    | (Except.ok f, fs₂) => (Except.ok (session_id, f), fs₂)
    | (Except.error m, fs₂) => (Except.error (500, m), fs₂)

/-! ### Store lemmas -/

theorem lookup_fsWrite_self (fs : FS) (p : List String) (v : String) :
    (fsWrite fs p v).lookup p = some v := by
  simp [fsWrite, List.lookup]

theorem lookup_fsWrite_ne (fs : FS) {p q : List String} (v : String) (h : q ≠ p) :
    (fsWrite fs p v).lookup q = fs.lookup q := by
  have hb : (q == p) = false := beq_eq_false_iff_ne.mpr h
  simp [fsWrite, List.lookup, hb]

theorem lookup_fsErase_ne (fs : FS) {p q : List String} (h : q ≠ p) :
    (fsErase fs p).lookup q = fs.lookup q := by
  induction fs with
  | nil => rfl
  | cons hd tl ih =>
    have hqp : (q == p) = false := beq_eq_false_iff_ne.mpr h
    cases hd with
    | mk k v =>
      by_cases hh : k = p
      · subst hh
        simp [fsErase, List.filter, List.lookup, hqp] at ih ⊢
        exact ih
      · have hb : (k == p) = false := beq_eq_false_iff_ne.mpr hh
        by_cases hqk : q = k
        · subst hqk
          simp [fsErase, List.filter, List.lookup, hb]
        · have hq2 : (q == k) = false := beq_eq_false_iff_ne.mpr hqk
          simp [fsErase, List.filter, List.lookup, hb, hq2] at ih ⊢
          exact ih

theorem lookup_fsErase_self (fs : FS) (p : List String) :
    (fsErase fs p).lookup p = none := by
  induction fs with
  | nil => rfl
  | cons hd tl ih =>
    cases hd with
    | mk k v =>
      by_cases hh : k = p
      · subst hh
        simp [fsErase, List.filter] at ih ⊢
        exact ih
      · have hb : (k == p) = false := beq_eq_false_iff_ne.mpr hh
        have hp : (p == k) = false := beq_eq_false_iff_ne.mpr (fun he => hh he.symm)
        simp [fsErase, List.filter, List.lookup, hb, hp] at ih ⊢
        exact ih

/-! ### Path distinctness -/

theorem append_dot_ne_append_png (st : String) : st ++ ".dot" ≠ st ++ ".png" := by
  intro h
  have hd := congrArg String.data h
  rw [String.data_append, String.data_append] at hd
  exact absurd (List.append_cancel_left hd) (by decide)

theorem tempDot_ne_tempPng (st : String) : tempDotPath st ≠ tempPngPath st := by
  intro h
  simp only [tempDotPath, tempPngPath, TEMP_DIR, List.cons_append, List.nil_append] at h
  injection h with _ h2
  injection h2 with h3 _
  exact append_dot_ne_append_png st h3

theorem outputPdf_ne_tempDot (st st₂ : String) : outputPdfPath st ≠ tempDotPath st₂ := by
  intro h
  simp only [outputPdfPath, tempDotPath, OUTPUT_DIR, TEMP_DIR, List.cons_append,
    List.nil_append] at h
  injection h with h1 _
  exact absurd h1 (by decide)

theorem outputPdf_ne_tempPng (st st₂ : String) : outputPdfPath st ≠ tempPngPath st₂ := by
  intro h
  simp only [outputPdfPath, tempPngPath, OUTPUT_DIR, TEMP_DIR, List.cons_append,
    List.nil_append] at h
  injection h with h1 _
  exact absurd h1 (by decide)

/-! ### Pipeline shape lemmas: the exact result of process_dot_code in each of
its three outcomes. -/

theorem process_dot_code_renderFail (caps : Caps) (dot : String) (sf : List String)
    (fs : FS) (hc : caps.convertOk dot = false) :
    process_dot_code caps dot sf fs =
      (Except.error convertFailedMsg,
        fsErase (fsWrite (fsWrite fs sf dot) (tempDotPath (stemStr (lastName sf))) dot)
          (tempDotPath (stemStr (lastName sf)))) := by
  simp [process_dot_code, hc]

theorem process_dot_code_embedFail (caps : Caps) (dot : String) (sf : List String)
    (fs : FS) (hc : caps.convertOk dot = true) (he : caps.embedOk = false) :
    process_dot_code caps dot sf fs =
      (Except.error embedFailedMsg,
        fsErase
          (fsWrite (fsWrite (fsWrite fs sf dot) (tempDotPath (stemStr (lastName sf))) dot)
            (tempPngPath (stemStr (lastName sf))) (pngOf dot))
          (tempDotPath (stemStr (lastName sf)))) := by
  simp [process_dot_code, hc, he]

theorem process_dot_code_success (caps : Caps) (dot : String) (sf : List String)
    (fs : FS) (hc : caps.convertOk dot = true) (he : caps.embedOk = true) :
    process_dot_code caps dot sf fs =
      (Except.ok (outputPdfFilename (stemStr (lastName sf))),
        fsErase
          (fsWrite
            (fsErase
              (fsWrite (fsWrite (fsWrite fs sf dot) (tempDotPath (stemStr (lastName sf))) dot)
                (tempPngPath (stemStr (lastName sf))) (pngOf dot))
              (tempDotPath (stemStr (lastName sf))))
            (outputPdfPath (stemStr (lastName sf))) (pdfOf (pngOf dot)))
          (tempPngPath (stemStr (lastName sf)))) := by
  have h4 :
      (fsWrite
        (fsErase
          (fsWrite (fsWrite (fsWrite fs sf dot) (tempDotPath (stemStr (lastName sf))) dot)
            (tempPngPath (stemStr (lastName sf))) (pngOf dot))
          (tempDotPath (stemStr (lastName sf))))
        (outputPdfPath (stemStr (lastName sf))) (pdfOf (pngOf dot))).lookup
          (tempPngPath (stemStr (lastName sf))) = some (pngOf dot) := by
    rw [lookup_fsWrite_ne _ _ (outputPdf_ne_tempPng _ _).symm,
      lookup_fsErase_ne _ (tempDot_ne_tempPng _).symm,
      lookup_fsWrite_self]
  simp [process_dot_code, hc, he, h4]

/-! ### Sanitizer lemmas -/

theorem allowedChar_underscore : allowedChar '_' = true := by decide

theorem allowedChar_sanChar (c : Char) : allowedChar (sanChar c) = true := by
  by_cases h : allowedChar c = true
  · simp [sanChar, h]
  · simp [sanChar, h, allowedChar_underscore]

theorem sanChar_idem (c : Char) : sanChar (sanChar c) = sanChar c := by
  by_cases h : allowedChar c = true
  · simp [sanChar, h]
  · simp [sanChar, h, allowedChar_underscore]

/-! ### Claim theorems -/

/-- C8: normalize (sanitize_email_for_folder) is a total, deterministic, pure
function on strings: it succeeds on every input, equal inputs give equal
outputs, and every character of the output lies in the class [A-Za-z0-9_-]
(every character outside it having been replaced with an underscore). -/
theorem C8_normalize_total_deterministic_charset (x : String) :
    sanitize_email_for_folder x = sanitize_email_for_folder x ∧
    (sanitize_email_for_folder x).data.all allowedChar = true := by
  refine ⟨rfl, ?_⟩
  rw [show (sanitize_email_for_folder x).data = x.data.map sanChar from rfl]
  rw [List.all_map]
  rw [List.all_eq_true]
  intro c _
  exact allowedChar_sanChar c

/-- C9: sanitize_email_for_folder is idempotent and length-preserving:
applying it twice equals applying it once, and the output has exactly as
many characters as the input (each character maps to one character). -/
theorem C9_sanitize_idempotent_length_preserving (x : String) :
    sanitize_email_for_folder (sanitize_email_for_folder x) = sanitize_email_for_folder x ∧
    (sanitize_email_for_folder x).length = x.length := by
  constructor
  · have hl : ∀ l : List Char, (l.map sanChar).map sanChar = l.map sanChar := by
      intro l
      induction l with
      | nil => rfl
      | cons c cs ih => simp [sanChar_idem c, ih]
    exact congrArg String.mk (hl x.data)
  · exact List.length_map x.data sanChar

/-- C3: whenever the generator yields no text (returns None), the pipeline
aborts with the generation-failed error and the store is untouched: on
create nothing is persisted, and on append the stored document after the
call is the document before the call. -/
theorem C3_generation_failure_preserves_store (caps : Caps) (prompt : String)
    (sf : List String) (fs : FS) :
    (caps.genInitial prompt = none →
      process_flowchart_request caps prompt sf true fs = (Except.error genFailedMsg, fs)) ∧
    (∀ cur, fs.lookup sf = some cur → caps.genModify cur prompt = none →
      process_flowchart_request caps prompt sf false fs = (Except.error genFailedMsg, fs)) := by
  constructor
  · intro hg
    simp [process_flowchart_request, hg]
  · intro cur hcur hg
    simp [process_flowchart_request, hcur, hg]

/-- C10: an empty-string generator output is treated as a generation
failure, not a success: on both create and append the pipeline aborts with
the generation-failed error and the store is untouched, so an empty graph
document is never persisted. -/
theorem C10_empty_generator_output_fails (caps : Caps) (prompt : String)
    (sf : List String) (fs : FS) :
    (caps.genInitial prompt = some "" →
      process_flowchart_request caps prompt sf true fs = (Except.error genFailedMsg, fs)) ∧
    (∀ cur, fs.lookup sf = some cur → caps.genModify cur prompt = some "" →
      process_flowchart_request caps prompt sf false fs = (Except.error genFailedMsg, fs)) := by
  constructor
  · intro hg
    simp [process_flowchart_request, hg]
  · intro cur hcur hg
    simp [process_flowchart_request, hcur, hg]

/-- C7: the append route first checks that the presented session id
resolves to a stored document; when none exists it fails with the
404 SessionNotFound response and performs no generation, persistence or
rendering — the result does not depend on the capabilities at all and the
filesystem is returned unchanged. -/
theorem C7_append_unknown_session_not_found (caps : Caps)
    (email sid prompt : String) (fs : FS)
    (h : fs.lookup (sessionFilePath email sid) = none) :
    handle_add caps email sid prompt fs =
      (Except.error (404, "Session ID \x27" ++ sid ++
        "\x27 not found for user \x27" ++ email ++ "\x27."), fs) := by
  simp [handle_add, h]

/-- C4: a render failure after the persist step never rolls the session
document back: when Graphviz conversion fails, process_dot_code returns the
RenderFailed error yet the session file still holds the just-persisted DOT
text, so a subsequent append on the same session reads the new document. -/
theorem C4_render_failure_keeps_persisted_document (caps : Caps) (dot : String)
    (sf : List String) (fs : FS) (hc : caps.convertOk dot = false)
    (hsf : sf ≠ tempDotPath (stemStr (lastName sf))) :
    (process_dot_code caps dot sf fs).1 = Except.error convertFailedMsg ∧
    ((process_dot_code caps dot sf fs).2).lookup sf = some dot := by
  rw [process_dot_code_renderFail caps dot sf fs hc]
  refine ⟨rfl, ?_⟩
  rw [lookup_fsErase_ne _ hsf, lookup_fsWrite_ne _ _ hsf, lookup_fsWrite_self]

/-- C6: on a successful processing call the returned artifact name is the
deterministic function flowchart_<stem>.pdf of the session-file stem (the
session id) alone, and the output document is written under exactly that
derived name, so a later call for the same session writes the same path and
overwrites rather than accumulates. -/
theorem C6_output_name_deterministic_from_session (caps : Caps) (dot : String)
    (sf : List String) (fs : FS) (hc : caps.convertOk dot = true)
    (he : caps.embedOk = true) :
    (process_dot_code caps dot sf fs).1 =
      Except.ok (outputPdfFilename (stemStr (lastName sf))) ∧
    ((process_dot_code caps dot sf fs).2).lookup
      (outputPdfPath (stemStr (lastName sf))) = some (pdfOf (pngOf dot)) := by
  rw [process_dot_code_success caps dot sf fs hc he]
  refine ⟨rfl, ?_⟩
  rw [lookup_fsErase_ne _ (outputPdf_ne_tempPng _ _), lookup_fsWrite_self]

/-- The stem of the session file the routes derive for (email, session id);
this is the session id itself for ordinary ids. -/
def sessionStem (email sid : String) : String :=
  stemStr (lastName (sessionFilePath email sid))

/-- C5: after a successful create with instruction I, the document
persisted under the returned session id is exactly the generator output for
I — the orchestrator applies no transformation between generation and
persistence. -/
theorem C5_create_persists_generator_output_exactly (caps : Caps)
    (email prompt sid : String) (fs : FS) (d : String)
    (hg : caps.genInitial prompt = some d) (hd : d ≠ "")
    (hc : caps.convertOk d = true) (he : caps.embedOk = true)
    (h1 : sessionFilePath email sid ≠ tempDotPath (sessionStem email sid))
    (h2 : sessionFilePath email sid ≠ tempPngPath (sessionStem email sid))
    (h3 : sessionFilePath email sid ≠ outputPdfPath (sessionStem email sid)) :
    (handle_create caps email prompt sid fs).1 =
      Except.ok (sid, outputPdfFilename (sessionStem email sid)) ∧
    ((handle_create caps email prompt sid fs).2).lookup (sessionFilePath email sid) =
      some d := by
  have hp : process_flowchart_request caps prompt (sessionFilePath email sid) true fs =
      process_dot_code caps d (sessionFilePath email sid) fs := by
    simp [process_flowchart_request, hg, hd]
  have hs := process_dot_code_success caps d (sessionFilePath email sid) fs hc he
  rw [show stemStr (lastName (sessionFilePath email sid)) = sessionStem email sid from rfl]
    at hs
  constructor
  · simp [handle_create, hp, hs]
  · simp only [handle_create, hp, hs]
    rw [lookup_fsErase_ne _ h2, lookup_fsWrite_ne _ _ h3, lookup_fsErase_ne _ h1,
      lookup_fsWrite_ne _ _ h2, lookup_fsWrite_ne _ _ h1, lookup_fsWrite_self]

/-- C2 (amended): the temporary PNG is deleted on success, and none exists
after a render (conversion) failure since none was produced; but on an
embed failure the temporary PNG produced by the render step is NOT deleted —
process_dot_code returns before the unlink, so the file remains on storage. -/
theorem C2_amended_temp_png_cleanup (caps : Caps) (dot : String)
    (sf : List String) (fs : FS)
    (hpre : fs.lookup (tempPngPath (stemStr (lastName sf))) = none)
    (hsf : sf ≠ tempPngPath (stemStr (lastName sf))) :
    ((process_dot_code caps dot sf fs).2).lookup (tempPngPath (stemStr (lastName sf))) =
      (if caps.convertOk dot && !caps.embedOk then some (pngOf dot) else none) := by
  by_cases hc : caps.convertOk dot = true
  · by_cases he : caps.embedOk = true
    · rw [process_dot_code_success caps dot sf fs hc he, hc, he]
      simp only [Bool.not_true, Bool.and_false, Bool.false_eq_true, if_false]
      exact lookup_fsErase_self _ _
    · rw [Bool.not_eq_true] at he
      rw [process_dot_code_embedFail caps dot sf fs hc he, hc, he]
      simp only [Bool.not_false, Bool.and_true, if_true]
      rw [lookup_fsErase_ne _ (tempDot_ne_tempPng _).symm, lookup_fsWrite_self]
  · rw [Bool.not_eq_true] at hc
    rw [process_dot_code_renderFail caps dot sf fs hc, hc]
    simp only [Bool.false_and, Bool.false_eq_true, if_false]
    rw [lookup_fsErase_ne _ (tempDot_ne_tempPng _).symm,
      lookup_fsWrite_ne _ _ (tempDot_ne_tempPng _).symm,
      lookup_fsWrite_ne _ _ (fun hh => hsf hh.symm)]
    exact hpre

/-! ### Concrete fixtures for closed theorems and witnesses -/

/-- Capabilities where every external call succeeds. -/
def okCaps : Caps :=
  { genInitial := fun _ => some "digraph g"
    genModify := fun _ _ => some "digraph g2"
    convertOk := fun _ => true
    embedOk := true }

/-- Capabilities whose generator always fails (returns None). -/
def noGenCaps : Caps :=
  { genInitial := fun _ => none
    genModify := fun _ _ => none
    convertOk := fun _ => true
    embedOk := true }

/-- Capabilities whose generator returns the empty string. -/
def emptyGenCaps : Caps :=
  { genInitial := fun _ => some ""
    genModify := fun _ _ => some ""
    convertOk := fun _ => true
    embedOk := true }

/-- Capabilities where Graphviz conversion fails. -/
def convertFailCaps : Caps :=
  { genInitial := fun _ => some "digraph g"
    genModify := fun _ _ => some "digraph g2"
    convertOk := fun _ => false
    embedOk := true }

/-- Capabilities where conversion succeeds but PDF embedding fails. -/
def embedFailCaps : Caps :=
  { genInitial := fun _ => some "digraph g"
    genModify := fun _ _ => some "digraph g2"
    convertOk := fun _ => true
    embedOk := false }

/-- A store holding one session document for user namespace u_x. -/
def fsOne : FS := [(["session_files", "u_x", "s1.dot"], "digraph g")]

/-- A store holding only another user's session document and no template at
all: the template catalog over it is empty. -/
def fsVictim : FS := [(["session_files", "victim", "aaaa.dot"], "digraph victim")]

/-- C1: the claim fails on the code — the template id IS used to construct
a filesystem path (TEMPLATE_DIR / (template_id ++ ".dot")) and is validated
only by an is_file check on that path, not against a closed enumeration.
With the traversal id "../session_files/victim/aaaa", over a store whose
template catalog is empty, load_template does NOT return TemplateNotFound:
it reads another user's session document (a path outside the template set)
and creates a new session from it. -/
theorem C1_template_traversal_at_failing_input :
    list_templates fsVictim = [] ∧
    (handle_load_template okCaps "attacker@evil" "../session_files/victim/aaaa"
        "newsid" fsVictim).1 = Except.ok ("newsid", "flowchart_newsid.pdf") ∧
    ((handle_load_template okCaps "attacker@evil" "../session_files/victim/aaaa"
        "newsid" fsVictim).2).lookup ["session_files", "attacker_evil", "newsid.dot"] =
      some "digraph victim" := by
  refine ⟨rfl, rfl, rfl⟩

/-- C2 counterexample: on an embed failure the temporary PNG produced by
the render step remains on storage, so the claim that no temporary image
survives every outcome is false at this concrete input. -/
theorem C2_counterexample_embed_failure_leaves_temp_png :
    (process_dot_code embedFailCaps "digraph g" ["session_files", "u_x", "s1.dot"] []).1 =
      Except.error embedFailedMsg ∧
    ((process_dot_code embedFailCaps "digraph g"
        ["session_files", "u_x", "s1.dot"] []).2).lookup ["temp_files", "s1.png"] =
      some (pngOf "digraph g") := by
  refine ⟨rfl, rfl⟩

/-- C2 witness: the amended cleanup theorem applied at a concrete embed
failure. -/
theorem C2_amended_temp_png_cleanup_witness :
    (([] : FS).lookup (tempPngPath (stemStr (lastName ["session_files", "u_x", "s1.dot"]))) =
        none ∧
      ["session_files", "u_x", "s1.dot"] ≠
        tempPngPath (stemStr (lastName ["session_files", "u_x", "s1.dot"]))) ∧
    ((process_dot_code embedFailCaps "digraph g"
        ["session_files", "u_x", "s1.dot"] []).2).lookup
        (tempPngPath (stemStr (lastName ["session_files", "u_x", "s1.dot"]))) =
      (if embedFailCaps.convertOk "digraph g" && !embedFailCaps.embedOk
       then some (pngOf "digraph g") else none) :=
  ⟨⟨rfl, by decide⟩,
    C2_amended_temp_png_cleanup embedFailCaps "digraph g"
      ["session_files", "u_x", "s1.dot"] [] rfl (by decide)⟩

/-- C3 witness: generation failure on both the create and the append flow
at a concrete store, leaving the store untouched. -/
theorem C3_generation_failure_preserves_store_witness :
    (noGenCaps.genInitial "p" = none ∧
      process_flowchart_request noGenCaps "p" ["session_files", "u_x", "s1.dot"] true fsOne =
        (Except.error genFailedMsg, fsOne)) ∧
    (fsOne.lookup ["session_files", "u_x", "s1.dot"] = some "digraph g" ∧
      noGenCaps.genModify "digraph g" "p" = none ∧
      process_flowchart_request noGenCaps "p" ["session_files", "u_x", "s1.dot"] false fsOne =
        (Except.error genFailedMsg, fsOne)) :=
  ⟨⟨rfl, (C3_generation_failure_preserves_store noGenCaps "p"
      ["session_files", "u_x", "s1.dot"] fsOne).1 rfl⟩,
    ⟨rfl, rfl, (C3_generation_failure_preserves_store noGenCaps "p"
      ["session_files", "u_x", "s1.dot"] fsOne).2 "digraph g" rfl rfl⟩⟩

/-- C4 witness: render failure at a concrete input keeps the just-persisted
session document. -/
theorem C4_render_failure_keeps_persisted_document_witness :
    (convertFailCaps.convertOk "digraph g" = false ∧
      ["session_files", "u_x", "s1.dot"] ≠
        tempDotPath (stemStr (lastName ["session_files", "u_x", "s1.dot"]))) ∧
    ((process_dot_code convertFailCaps "digraph g"
        ["session_files", "u_x", "s1.dot"] []).1 = Except.error convertFailedMsg ∧
      ((process_dot_code convertFailCaps "digraph g"
        ["session_files", "u_x", "s1.dot"] []).2).lookup
        ["session_files", "u_x", "s1.dot"] = some "digraph g") :=
  ⟨⟨rfl, by decide⟩,
    C4_render_failure_keeps_persisted_document convertFailCaps "digraph g"
      ["session_files", "u_x", "s1.dot"] [] rfl (by decide)⟩

/-- C5 witness: a concrete successful create persists exactly the generator
output. -/
theorem C5_create_persists_generator_output_exactly_witness :
    (okCaps.genInitial "make a chart" = some "digraph g" ∧ "digraph g" ≠ "" ∧
      okCaps.convertOk "digraph g" = true ∧ okCaps.embedOk = true ∧
      sessionFilePath "u@x" "s1" ≠ tempDotPath (sessionStem "u@x" "s1") ∧
      sessionFilePath "u@x" "s1" ≠ tempPngPath (sessionStem "u@x" "s1") ∧
      sessionFilePath "u@x" "s1" ≠ outputPdfPath (sessionStem "u@x" "s1")) ∧
    ((handle_create okCaps "u@x" "make a chart" "s1" []).1 =
        Except.ok ("s1", outputPdfFilename (sessionStem "u@x" "s1")) ∧
      ((handle_create okCaps "u@x" "make a chart" "s1" []).2).lookup
        (sessionFilePath "u@x" "s1") = some "digraph g") :=
  ⟨⟨rfl, by decide, rfl, rfl, by decide, by decide, by decide⟩,
    C5_create_persists_generator_output_exactly okCaps "u@x" "make a chart" "s1" []
      "digraph g" rfl (by decide) rfl rfl (by decide) (by decide) (by decide)⟩

/-- C6 witness: a concrete successful call returns the deterministic output
name derived from the session stem and writes the output under it. -/
theorem C6_output_name_deterministic_from_session_witness :
    (okCaps.convertOk "digraph g" = true ∧ okCaps.embedOk = true) ∧
    ((process_dot_code okCaps "digraph g" ["session_files", "u_x", "s1.dot"] []).1 =
        Except.ok (outputPdfFilename (stemStr (lastName ["session_files", "u_x", "s1.dot"]))) ∧
      ((process_dot_code okCaps "digraph g" ["session_files", "u_x", "s1.dot"] []).2).lookup
        (outputPdfPath (stemStr (lastName ["session_files", "u_x", "s1.dot"]))) =
        some (pdfOf (pngOf "digraph g"))) :=
  ⟨⟨rfl, rfl⟩,
    C6_output_name_deterministic_from_session okCaps "digraph g"
      ["session_files", "u_x", "s1.dot"] [] rfl rfl⟩

/-- C7 witness: an append with an unknown session id over the empty store
fails with 404 and changes nothing. -/
theorem C7_append_unknown_session_not_found_witness :
    ([] : FS).lookup (sessionFilePath "u@x" "nope") = none ∧
    handle_add noGenCaps "u@x" "nope" "p" [] =
      (Except.error (404, "Session ID \x27" ++ "nope" ++
        "\x27 not found for user \x27" ++ "u@x" ++ "\x27."), ([] : FS)) :=
  ⟨rfl, C7_append_unknown_session_not_found noGenCaps "u@x" "nope" "p" [] rfl⟩

/-- C10 witness: an empty-string generator output aborts both flows at a
concrete store, leaving the store untouched. -/
theorem C10_empty_generator_output_fails_witness :
    (emptyGenCaps.genInitial "p" = some "" ∧
      process_flowchart_request emptyGenCaps "p" ["session_files", "u_x", "s1.dot"] true fsOne =
        (Except.error genFailedMsg, fsOne)) ∧
    (fsOne.lookup ["session_files", "u_x", "s1.dot"] = some "digraph g" ∧
      emptyGenCaps.genModify "digraph g" "p" = some "" ∧
      process_flowchart_request emptyGenCaps "p" ["session_files", "u_x", "s1.dot"] false fsOne =
        (Except.error genFailedMsg, fsOne)) :=
  ⟨⟨rfl, (C10_empty_generator_output_fails emptyGenCaps "p"
      ["session_files", "u_x", "s1.dot"] fsOne).1 rfl⟩,
    ⟨rfl, rfl, (C10_empty_generator_output_fails emptyGenCaps "p"
      ["session_files", "u_x", "s1.dot"] fsOne).2 "digraph g" rfl rfl⟩⟩

end Flowchart
